import Mathlib

/-!
Verification of the receipt-processing pipeline (lesentiel).

Shallow embedding of the pipeline sources: the LLM extraction module
(`llmProcessor.ts`), the file parser (`fileParser.ts`), the receipt store
(`receipts.ts`), the database layer (`db/receipts.ts`, `db/items.ts`) and
the orchestrator (`processor.ts`).  Machine numbers are modelled as exact
rationals; the external collaborators (the OpenAI transport, the Bun file
API, the SQLite engine) are modelled at the interface the code uses:
the filesystem as a partial map from paths to nodes, the LLM as an
oracle function, the database as an in-memory list of rows with the
`filename` uniqueness check and atomic transactions.  Timestamps
(`processed_at DEFAULT CURRENT_TIMESTAMP`) come from the engine clock and
are outside the model.
-/

namespace Lesentiel

/-- One line item of `ExtractedReceiptData` (llmProcessor.ts): quantity is a
required number, unit price and category optional. -/
structure ExtractedItem where
  item_name : String
  quantity : ℚ
  unit_price : Option ℚ
  total_price : ℚ
  category : Option String
deriving DecidableEq, Repr

/-- `ExtractedReceiptData` (llmProcessor.ts). -/
structure ExtractedReceiptData where
  merchant_name : String
  receipt_date : String
  total_amount : ℚ
  currency : String
  items : List ExtractedItem
  confidence : ℚ
deriving DecidableEq, Repr

/-- Sum of `total_price` over the items, as in
`data.items.reduce((sum, item) => sum + item.total_price, 0)`. -/
def itemsSum (items : List ExtractedItem) : ℚ :=
  items.foldl (fun s item => s + item.total_price) 0

/-- Model of JavaScript `Number.prototype.toFixed(2)` on exact rationals:
round to two decimal places and print with exactly two fractional digits. -/
def toFixed2 (q : ℚ) : String :=
  let n : ℤ := round (q * 100)
  let sign := if n < 0 then "-" else ""
  let m := n.natAbs
  let r := m % 100
  sign ++ toString (m / 100) ++ "." ++ (if r < 10 then "0" else "") ++ toString r

/-- The sum-mismatch issue message built by `validateReceiptData`. -/
def sumIssueMsg (itemsSum total : ℚ) : String :=
  "Items sum ($" ++ toFixed2 itemsSum ++ ") doesn\x27t match total ($" ++
    toFixed2 total ++ ")"

/-- The empty-items issue message of `validateReceiptData`. -/
def noItemsIssue : String := "No items found in receipt"

/-- The date-format issue message of `validateReceiptData`. -/
def dateIssue : String := "Invalid date format (expected YYYY-MM-DD)"

/-- The regex `/^\d{4}-\d{2}-\d{2}$/` of `validateReceiptData`: exactly
four digits, a dash, two digits, a dash, two digits.  Purely syntactic. -/
def dateFormatOk (s : String) : Bool :=
  match s.data with
  | [a, b, c, d, e, f, g, h, i, j] =>
      a.isDigit && b.isDigit && c.isDigit && d.isDigit && e = '-' &&
      f.isDigit && g.isDigit && h = '-' && i.isDigit && j.isDigit
  | _ => false

/-- Result shape of `validateReceiptData`. -/
structure ValidationResult where
  valid : Bool
  issues : List String
deriving DecidableEq, Repr

/-- `validateReceiptData` (llmProcessor.ts lines 188-221): three independent
checks pushing issue strings; `valid` iff no issue was pushed. -/
def validateReceiptData (data : ExtractedReceiptData) : ValidationResult :=
  let sum := itemsSum data.items
  let tolerance := max (0.05 * data.total_amount) 0.5
  let difference := |sum - data.total_amount|
  let issues : List String :=
    (if difference > tolerance then [sumIssueMsg sum data.total_amount] else []) ++
    (if data.items.length = 0 then [noItemsIssue] else []) ++
    (if dateFormatOk data.receipt_date then [] else [dateIssue])
  { valid := issues.length = 0, issues := issues }

/-! ## Database layer (db/index.ts, db/receipts.ts, db/items.ts)

The SQLite engine is modelled as an in-memory pair of row lists with
autoincrement counters (SQLite assigns ids starting at 1).  `db.transaction`
runs its body atomically: on an error the caller keeps the pre-transaction
state. -/

/-- A row of the `receipts` table.  `NULL`able columns are `Option`s;
`processed_at` (engine clock) is outside the model. -/
structure ReceiptRow where
  id : ℕ
  filename : String
  merchant_name : Option String
  receipt_date : Option String
  total_amount : Option ℚ
  currency : String
  raw_text : Option String
  processing_status : String
deriving DecidableEq, Repr

/-- A row of the `receipt_items` table. -/
structure ItemRow where
  id : ℕ
  receipt_id : ℕ
  item_name : String
  quantity : ℚ
  unit_price : Option ℚ
  total_price : ℚ
  category : Option String
deriving DecidableEq, Repr

/-- The database state: both tables plus the autoincrement counters. -/
structure DB where
  receipts : List ReceiptRow
  items : List ItemRow
  nextReceiptId : ℕ
  nextItemId : ℕ
deriving DecidableEq, Repr

/-- The `Receipt` input interface of db/receipts.ts: every field except
`filename` is optional (`id` and `processed_at` are assigned by the
engine and never supplied on insert). -/
structure ReceiptInput where
  filename : String
  merchant_name : Option String
  receipt_date : Option String
  total_amount : Option ℚ
  currency : Option String
  raw_text : Option String
  processing_status : Option String
deriving DecidableEq, Repr

/-- The item input interface of `insertReceiptItems`
(`Omit<ReceiptItem, "id" | "receipt_id">`): quantity, unit price and
category optional. -/
structure ItemInput where
  item_name : String
  quantity : Option ℚ
  unit_price : Option ℚ
  total_price : ℚ
  category : Option String
deriving DecidableEq, Repr

/-- JavaScript `x || null` on an optional string: `""` is falsy. -/
def orNullStr (s : Option String) : Option String :=
  match s with
  | some v => if v = "" then none else some v
  | none => none

/-- JavaScript `x || d` on an optional string with a string default. -/
def orDefaultStr (s : Option String) (d : String) : String :=
  match s with
  | some v => if v = "" then d else v
  | none => d

/-- JavaScript `x || null` on an optional number: `0` is falsy. -/
def orNullNum (q : Option ℚ) : Option ℚ :=
  match q with
  | some v => if v = 0 then none else some v
  | none => none

/-- JavaScript `x || d` on an optional number with a numeric default. -/
def orDefaultNum (q : Option ℚ) (d : ℚ) : ℚ :=
  match q with
  | some v => if v = 0 then d else v
  | none => d

/-- `getReceiptByFilename` (db/receipts.ts): first row matching the
filename, or `null`. -/
def getReceiptByFilename (db : DB) (filename : String) : Option ReceiptRow :=
  db.receipts.find? (fun r => r.filename = filename)

/-- `insertReceipt` (db/receipts.ts lines 130-168): binds the parameters
with the `||` coercions and inserts, returning the new row.  The UNIQUE
constraint on `filename` makes the engine raise on a duplicate. -/
def insertReceipt (db : DB) (receipt : ReceiptInput) : Except String (ReceiptRow × DB) :=
  match getReceiptByFilename db receipt.filename with
  | some _ => .error "UNIQUE constraint failed: receipts.filename"
  | none =>
    let row : ReceiptRow :=
      { id := db.nextReceiptId
        filename := receipt.filename
        merchant_name := orNullStr receipt.merchant_name
        receipt_date := orNullStr receipt.receipt_date
        total_amount := orNullNum receipt.total_amount
        currency := orDefaultStr receipt.currency "USD"
        raw_text := orNullStr receipt.raw_text
        processing_status := orDefaultStr receipt.processing_status "pending" }
    .ok (row, { db with receipts := db.receipts ++ [row],
                        nextReceiptId := db.nextReceiptId + 1 })

/-- The row built for one item by the prepared statement inside
`insertReceiptItems` (db/items.ts lines 34-42), with the `||` coercions on
quantity, unit price and category. -/
def mkItemRow (id receiptId : ℕ) (item : ItemInput) : ItemRow :=
  { id := id
    receipt_id := receiptId
    item_name := item.item_name
    quantity := orDefaultNum item.quantity 1
    unit_price := orNullNum item.unit_price
    total_price := item.total_price
    category := orNullStr item.category }

/-- The rows produced for an item list, ids assigned consecutively from
`firstId`. -/
def mkItemRows (firstId receiptId : ℕ) : List ItemInput → List ItemRow
  | [] => []
  | item :: rest => mkItemRow firstId receiptId item :: mkItemRows (firstId + 1) receiptId rest

/-- `insertReceiptItems` (db/items.ts lines 8-53): inserts every item bound
to `receiptId` inside one transaction; each insert succeeds, so the loop
appends one row per input item. -/
def insertReceiptItems (db : DB) (receiptId : ℕ) (items : List ItemInput) : DB :=
  { db with items := db.items ++ mkItemRows db.nextItemId receiptId items,
            nextItemId := db.nextItemId + items.length }

/-! ## Extraction (llmProcessor.ts) and orchestrator (processor.ts)

The external collaborators are collected into an environment: the home
directory, the filesystem (path to base64 file content, `none` when the
path does not exist) and the OpenAI vision transport as an oracle that
given the base64 payload and fallback text either yields the parsed
`ExtractedReceiptData` or fails (transport error, empty response or
malformed JSON). -/

/-- The external environment of one pipeline run. -/
structure Env where
  homedir : String
  fs : String → Option String
  visionRaw : String → String → Except String ExtractedReceiptData

/-- `ENABLE_VISION_FALLBACK = process.env["ENABLE_VISION_FALLBACK"] !== "false"`
(processor.ts lines 32-33): true unless the variable is literally `"false"`. -/
def ENABLE_VISION_FALLBACK (envVar : Option String) : Bool :=
  envVar != some "false"

/-- `RECEIPTS_DIR = join(homedir(), "receipts")` / `getReceiptsDir`. -/
def getReceiptsDir (env : Env) : String :=
  env.homedir ++ "/receipts"

/-- `join(dir, file)` on already-normalised segments. -/
def joinPath (dir file : String) : String :=
  dir ++ "/" ++ file

/-- `extractReceiptDataWithVision` (llmProcessor.ts lines 103-182): one
request to the vision transport; any error is wrapped naming the vision
path; a response with a falsy merchant name or date is rejected as
incomplete (the `total_amount == null` test cannot fire on a parsed
numeric total). -/
def extractReceiptDataWithVision (env : Env) (pdfBase64 fallbackText : String) :
    Except String ExtractedReceiptData :=
  match env.visionRaw pdfBase64 fallbackText with
  | .error e => .error ("Failed to extract receipt data with vision: " ++ e)
  | .ok data =>
    if data.merchant_name = "" ∨ data.receipt_date = "" then
      .error "Failed to extract receipt data with vision: Incomplete receipt data extracted from vision"
    else .ok data

/-- `ProcessingResult` (processor.ts lines 20-29). -/
structure ProcessingResult where
  success : Bool
  filename : String
  receiptId : Option ℕ
  message : String
  usedVision : Bool
  textQuality : Option ℚ
  extractedData : Option ExtractedReceiptData
  validationIssues : Option (List String)
deriving DecidableEq, Repr

/-- Outcome of one `processReceipt` call: its returned record, the database
after the call, and how many vision requests were issued during it. -/
structure PipelineOutcome where
  result : ProcessingResult
  db : DB
  visionCalls : ℕ
deriving DecidableEq, Repr

/-- `ExtractedItem` upcast to the `insertReceiptItems` input interface. -/
def toItemInput (i : ExtractedItem) : ItemInput :=
  { item_name := i.item_name
    quantity := some i.quantity
    unit_price := i.unit_price
    total_price := i.total_price
    category := i.category }

/-- The body of `db.transaction(() => ...)` in processor.ts lines 88-110:
insert the header (status by validation), guard the returned id, insert the
items when any exist.  Run atomically: an `.error` leaves the caller on the
pre-transaction state. -/
def processTransaction (db : DB) (filename : String) (data : ExtractedReceiptData)
    (validation : ValidationResult) : Except String (ℕ × DB) :=
  match insertReceipt db
      { filename := filename
        merchant_name := some data.merchant_name
        receipt_date := some data.receipt_date
        total_amount := some data.total_amount
        currency := some data.currency
        raw_text := some ""
        processing_status := some (if validation.valid then "complete" else "needs_review") } with
  | .error e => .error e
  | .ok (receipt, db1) =>
    if receipt.id = 0 then .error "Failed to insert receipt"
    else
      let db2 :=
        if data.items.length > 0 then
          insertReceiptItems db1 receipt.id (data.items.map toItemInput)
        else db1
      .ok (receipt.id, db2)

/-- `processReceipt` (processor.ts lines 42-139): idempotency check, PDF
load, vision extraction, validation, transactional persistence; the
`catch` turns every failure into a `success = false` record and leaves the
database untouched. -/
def processReceipt (env : Env) (enableVisionFallback : Bool) (db : DB)
    (filename : String) : PipelineOutcome :=
  let pdfPath := joinPath (getReceiptsDir env) filename
  match getReceiptByFilename db filename with
  | some existing =>
    ⟨{ success := false, filename := filename, receiptId := some existing.id,
       message := "Receipt already processed", usedVision := false,
       textQuality := none, extractedData := none, validationIssues := none }, db, 0⟩
  | none =>
    match env.fs pdfPath with
    | none =>
      ⟨{ success := false, filename := filename, receiptId := none,
         message := "PDF file not found: " ++ pdfPath, usedVision := false,
         textQuality := none, extractedData := none, validationIssues := none }, db, 0⟩
    | some pdfBase64 =>
      match extractReceiptDataWithVision env pdfBase64 "" with
      | .error msg =>
        ⟨{ success := false, filename := filename, receiptId := none,
           message := msg, usedVision := false,
           textQuality := none, extractedData := none, validationIssues := none }, db, 1⟩
      | .ok extractedData =>
        let validation := validateReceiptData extractedData
        match processTransaction db filename extractedData validation with
        | .error msg =>
          ⟨{ success := false, filename := filename, receiptId := none,
             message := msg, usedVision := false,
             textQuality := none, extractedData := none, validationIssues := none }, db, 1⟩
        | .ok (receiptId, db2) =>
          ⟨{ success := true, filename := filename, receiptId := some receiptId,
             message := if validation.valid then "Receipt processed successfully"
                        else "Receipt processed with validation issues",
             usedVision := true, textQuality := none,
             extractedData := some extractedData,
             validationIssues := some validation.issues }, db2, 1⟩

/-- `processMultipleReceipts` (processor.ts lines 144-155): strictly
sequential fold, one outcome pushed per filename. -/
def processMultipleReceipts (env : Env) (enableVisionFallback : Bool) (db : DB) :
    List String → List ProcessingResult × DB
  | [] => ([], db)
  | filename :: rest =>
    let out := processReceipt env enableVisionFallback db filename
    let next := processMultipleReceipts env enableVisionFallback out.db rest
    (out.result :: next.1, next.2)

/-! ## Receipt store (receipts.ts)

The filesystem is modelled as a map from paths to nodes.  The Bun file API
is modelled at the interface the code relies on: `Bun.file(p).exists()` is
presence of a node at `p`, `Bun.file(p).size` is defined for a regular
file and undefined for a directory (the `size === undefined` test).  The
three effectful steps of the move (copy, clear source, remove source) can
each fail with an I/O error, injected through a schedule so the
non-atomic intermediate states are observable. -/

/-- A filesystem node: a regular file with its byte content, or a
directory. -/
inductive FSEntry where
  | file (content : String)
  | dir
deriving DecidableEq, Repr

/-- The filesystem: a map from absolute paths to nodes. -/
structure FileSys where
  entries : String → Option FSEntry

/-- Write a whole file (`Bun.write`): creates or overwrites the node. -/
def FileSys.write (fs : FileSys) (path content : String) : FileSys :=
  ⟨fun q => if q = path then some (.file content) else fs.entries q⟩

/-- Remove a node (`rm`). -/
def FileSys.remove (fs : FileSys) (path : String) : FileSys :=
  ⟨fun q => if q = path then none else fs.entries q⟩

/-- Split a character list on a separator character
(JavaScript `split`). -/
def splitOnChar (sep : Char) : List Char → List (List Char)
  | [] => [[]]
  | c :: t =>
    let r := splitOnChar sep t
    if c = sep then [] :: r
    else
      match r with
      | [] => [[c]]
      | h :: t2 => (c :: h) :: t2

/-- `basename(sourcePath)`: the final path segment. -/
def basename (p : String) : String :=
  String.mk (((splitOnChar '/' p.data).getLast?).getD p.data)

/-- The three effectful steps of `moveFileToReceipts`. -/
inductive MoveStep where
  | copy
  | clearSource
  | removeSource
deriving DecidableEq, Repr

/-- `moveFileToReceipts` (receipts.ts lines 143-180): validate the source
exists and is a regular file, reject an existing destination name, then
copy, clear the source content and remove the source.  `io` injects an
I/O failure (with its message) at a given step; a raised error is wrapped
as `Failed to move file: ...` by the `catch`, and the effects already
performed remain. -/
def moveFileToReceipts (homedir : String) (io : MoveStep → Option String)
    (fs : FileSys) (sourcePath : String) : Except String String × FileSys :=
  match fs.entries sourcePath with
  | none => (.error ("Source file does not exist: " ++ sourcePath), fs)
  | some .dir => (.error ("Source is not a file: " ++ sourcePath), fs)
  | some (.file content) =>
    let filename := basename sourcePath
    let destPath := joinPath (homedir ++ "/receipts") filename
    if (fs.entries destPath).isSome then
      (.error ("File already exists in receipts: " ++ filename), fs)
    else
      match io .copy with
      | some msg => (.error ("Failed to move file: " ++ msg), fs)
      | none =>
        let fs1 := fs.write destPath content
        match io .clearSource with
        | some msg => (.error ("Failed to move file: " ++ msg), fs1)
        | none =>
          let fs2 := fs1.write sourcePath ""
          match io .removeSource with
          | some msg => (.error ("Failed to move file: " ++ msg), fs2)
          | none => (.ok filename, fs2.remove sourcePath)

/-! ## File parser (fileParser.ts)

The JavaScript string operations are modelled executably over the
character data (`String.trim`, `split`, `includes`, `replace`,
`startsWith`/`endsWith`, `slice`), and the WHATWG `new URL` +
`decodeURIComponent` pair for `file://` URLs is modelled at its
interface: the pathname starts at the first `/` after the authority and
percent escapes are decoded bytewise, a malformed escape failing the
URL-based handling so the line falls through to the plain rules. -/

/-- JavaScript `String.prototype.trim`. -/
def jsTrim (s : String) : String :=
  String.mk (((s.data.dropWhile Char.isWhitespace).reverse.dropWhile Char.isWhitespace).reverse)

/-- JavaScript `text.split("\n")`. -/
def jsSplitNewline (s : String) : List String :=
  (splitOnChar (Char.ofNat 10) s.data).map String.mk

/-- `line.startsWith(p)`. -/
def jsStartsWith (s p : String) : Bool :=
  s.data.take p.data.length = p.data

/-- `line.endsWith(p)`. -/
def jsEndsWith (s p : String) : Bool :=
  s.data.reverse.take p.data.length = p.data.reverse

/-- `line.includes("\\ ")`. -/
def hasEscapedSpace : List Char → Bool
  | '\\' :: ' ' :: _ => true
  | _ :: t => hasEscapedSpace t
  | [] => false

/-- `line.replace(/\\ /g, " ")`. -/
def unescapeSpaces : List Char → List Char
  | '\\' :: ' ' :: t => ' ' :: unescapeSpaces t
  | c :: t => c :: unescapeSpaces t
  | [] => []

/-- Value of a hexadecimal digit. -/
def hexDigitVal (c : Char) : Option ℕ :=
  if '0' ≤ c ∧ c ≤ '9' then some (c.toNat - '0'.toNat)
  else if 'a' ≤ c ∧ c ≤ 'f' then some (c.toNat - 'a'.toNat + 10)
  else if 'A' ≤ c ∧ c ≤ 'F' then some (c.toNat - 'A'.toNat + 10)
  else none

/-- Bytewise percent-decoding (`decodeURIComponent`); `none` on a
malformed escape, which in the source raises and falls through. -/
def percentDecode : List Char → Option (List Char)
  | [] => some []
  | '%' :: a :: b :: t =>
    match hexDigitVal a, hexDigitVal b with
    | some ha, some hb =>
      match percentDecode t with
      | some d => some (Char.ofNat (16 * ha + hb) :: d)
      | none => none
    | _, _ => none
  | '%' :: _ => none
  | c :: t =>
    match percentDecode t with
    | some d => some (c :: d)
    | none => none

/-- Model of `new URL(line)` + `decodeURIComponent(url.pathname)` for a
line starting with `file://`: the pathname begins at the first `/` after
the authority (an authority with no path yields `/`). -/
def parseFileURL (line : String) : Option String :=
  let rest := line.data.drop 7
  let tail := rest.dropWhile (fun c => c ≠ '/')
  let pathChars := if tail.isEmpty then ['/'] else tail
  match percentDecode pathChars with
  | some d => some (String.mk d)
  | none => none

/-- The candidate path one loop iteration of `parseFilePaths` pushes for a
line that is not a successfully parsed `file://` URL: quote stripping,
escaped-space unescaping, or the line as-is (both arms of the final
space check push the line unchanged). -/
def transformPlain (line : String) : String :=
  if (jsStartsWith line "\"" && jsEndsWith line "\"") ||
      (jsStartsWith line "\x27" && jsEndsWith line "\x27") then
    String.mk (line.data.drop 1).dropLast
  else if hasEscapedSpace line.data then
    String.mk (unescapeSpaces line.data)
  else line

/-- The candidate path pushed for one line (fileParser.ts lines 245-280):
exactly one candidate per line. -/
def transformLine (line : String) : String :=
  if jsStartsWith line "file://" then
    match parseFileURL line with
    | some decoded => decoded
    | none => transformPlain line
  else transformPlain line

/-- The trimmed, non-empty lines of the pasted text
(fileParser.ts line 241). -/
def candidateLines (pastedText : String) : List String :=
  let trimmed := jsTrim pastedText
  if trimmed = "" then []
  else ((jsSplitNewline trimmed).map jsTrim).filter (fun l => l.length > 0)

/-- `parseFilePaths` (fileParser.ts lines 234-291), with the filesystem
existence test `Bun.file(path).exists()` as a parameter: transform every
line into one candidate, then keep the candidates that exist. -/
def parseFilePaths (fsExists : String → Bool) (pastedText : String) : List String :=
  ((candidateLines pastedText).map transformLine).filter fsExists

/-! ## Concrete sample values used by the closed witness theorems -/

/-- A sample extracted line item. -/
def sampleItem : ExtractedItem :=
  { item_name := "Tea", quantity := 1, unit_price := none,
    total_price := 10, category := none }

/-- A sample extraction result. -/
def sampleData : ExtractedReceiptData :=
  { merchant_name := "Cafe X", receipt_date := "2024-01-02",
    total_amount := 10, currency := "USD",
    items := [sampleItem], confidence := 95 }

/-- A sample environment: one stored PDF, a vision transport that always
answers `sampleData`. -/
def sampleEnv : Env :=
  { homedir := "/home/u"
    fs := fun p => if p = "/home/u/receipts/a.pdf" then some "B64" else none
    visionRaw := fun _ _ => .ok sampleData }

/-- An environment whose vision transport always fails. -/
def failEnv : Env :=
  { homedir := "/home/u"
    fs := fun p => if p = "/home/u/receipts/a.pdf" then some "B64" else none
    visionRaw := fun _ _ => .error "boom" }

/-- The empty database (SQLite autoincrement starts at 1). -/
def emptyDB : DB :=
  { receipts := [], items := [], nextReceiptId := 1, nextItemId := 1 }

/-- A sample already-stored receipt row. -/
def sampleRow : ReceiptRow :=
  { id := 7, filename := "a.pdf", merchant_name := some "Cafe X",
    receipt_date := some "2024-01-02", total_amount := some 10,
    currency := "USD", raw_text := none, processing_status := "complete" }

/-- A database already holding `sampleRow`. -/
def dbWithRow : DB :=
  { receipts := [sampleRow], items := [], nextReceiptId := 8, nextItemId := 1 }

/-! ## C1 — extraction-path selection -/

/-- C1 (counterexample): the claim says that with the vision-fallback flag
disabled the orchestrator issues no vision extraction request.  With
`ENABLE_VISION_FALLBACK=false` in the environment the flag is disabled,
yet processing a fresh stored document still issues exactly one vision
request: the orchestrator never consults the flag. -/
theorem vision_request_despite_disabled_flag :
    ENABLE_VISION_FALLBACK (some "false") = false ∧
    (processReceipt sampleEnv (ENABLE_VISION_FALLBACK (some "false"))
        emptyDB "a.pdf").visionCalls = 1 ∧
    (processReceipt sampleEnv (ENABLE_VISION_FALLBACK (some "false"))
        emptyDB "a.pdf").result.usedVision = true :=
  ⟨rfl, rfl, rfl⟩

/-- C1 (amended): the flag (default enabled, disabled only by the literal
string "false") is read from the environment but never consulted: the
pipeline behaves identically for any flag value, and every document that
reaches the extraction step (no prior receipt, PDF present) triggers
exactly one vision request. -/
theorem vision_path_unconditional (env : Env) (flag1 flag2 : Bool) (db : DB)
    (fn : String) :
    processReceipt env flag1 db fn = processReceipt env flag2 db fn ∧
    ENABLE_VISION_FALLBACK none = true ∧
    (getReceiptByFilename db fn = none →
      ∀ b64, env.fs (joinPath (getReceiptsDir env) fn) = some b64 →
        (processReceipt env flag1 db fn).visionCalls = 1) := by
  refine ⟨rfl, rfl, ?_⟩
  intro h b64 hfs
  simp only [processReceipt, h, hfs]
  cases hx : extractReceiptDataWithVision env b64 "" with
  | error e => rfl
  | ok d =>
    cases ht : processTransaction db fn d (validateReceiptData d) with
    | error e => simp only [ht]
    | ok p => simp only [ht]

/-- C1 (amended) witness at the sample environment. -/
theorem vision_path_unconditional_witness :
    (processReceipt sampleEnv true emptyDB "a.pdf").visionCalls = 1 :=
  (vision_path_unconditional sampleEnv true false emptyDB "a.pdf").2.2 rfl "B64" rfl

/-! ## C2 — idempotent processing -/

/-- C2: when a receipt row already exists for the filename, `processReceipt`
returns `success = false` with the existing row id and the
prior-processing message, issues no vision request, and leaves the
database exactly as it was. -/
theorem processReceipt_idempotent (env : Env) (flag : Bool) (db : DB)
    (fn : String) (r : ReceiptRow) (h : getReceiptByFilename db fn = some r) :
    processReceipt env flag db fn =
      ⟨{ success := false, filename := fn, receiptId := some r.id,
         message := "Receipt already processed", usedVision := false,
         textQuality := none, extractedData := none,
         validationIssues := none }, db, 0⟩ := by
  simp only [processReceipt, h]

/-- C2 witness: re-processing `a.pdf` on a database already holding its row
reports the stored id 7 and changes nothing. -/
theorem processReceipt_idempotent_witness :
    processReceipt sampleEnv true dbWithRow "a.pdf" =
      ⟨{ success := false, filename := "a.pdf", receiptId := some 7,
         message := "Receipt already processed", usedVision := false,
         textQuality := none, extractedData := none,
         validationIssues := none }, dbWithRow, 0⟩ :=
  processReceipt_idempotent sampleEnv true dbWithRow "a.pdf" sampleRow rfl

/-! ## C3 — atomic persistence -/

/-- Every row produced by `mkItemRows` is bound to the given receipt id. -/
lemma mkItemRows_receipt_id : ∀ (items : List ItemInput) (firstId receiptId : ℕ)
    (r : ItemRow), r ∈ mkItemRows firstId receiptId items → r.receipt_id = receiptId := by
  intro items
  induction items with
  | nil => intro firstId rid r h; simp [mkItemRows] at h
  | cons it rest ih =>
    intro firstId rid r h
    rw [mkItemRows] at h
    rcases List.mem_cons.mp h with h | h
    · subst h; rfl
    · exact ih (firstId + 1) rid r h

/-- The persistence transaction on a fresh filename succeeds and appends
the coerced header row and one item row per extracted item, in one step. -/
lemma processTransaction_ok (db : DB) (fn : String) (data : ExtractedReceiptData)
    (validation : ValidationResult)
    (h1 : getReceiptByFilename db fn = none) (h4 : db.nextReceiptId ≠ 0) :
    processTransaction db fn data validation =
      .ok (db.nextReceiptId,
        { receipts := db.receipts ++
            [{ id := db.nextReceiptId, filename := fn,
               merchant_name := orNullStr (some data.merchant_name),
               receipt_date := orNullStr (some data.receipt_date),
               total_amount := orNullNum (some data.total_amount),
               currency := orDefaultStr (some data.currency) "USD",
               raw_text := none,
               processing_status :=
                 orDefaultStr
                   (some (if validation.valid then "complete" else "needs_review"))
                   "pending" }],
          items := db.items ++
            mkItemRows db.nextItemId db.nextReceiptId (data.items.map toItemInput),
          nextReceiptId := db.nextReceiptId + 1,
          nextItemId := db.nextItemId + (data.items.map toItemInput).length }) := by
  unfold processTransaction insertReceipt
  rw [h1]
  by_cases hi : data.items.length > 0
  · simp [h4, hi, insertReceiptItems, orNullStr]
  · have hempty : data.items = [] := by
      simpa using Nat.le_antisymm (Nat.not_lt.mp hi) (Nat.zero_le _)
    simp [h4, hi, hempty, mkItemRows, orNullStr]

/-- C3: on a successfully extracted document (fresh filename, stored PDF,
vision success) the pipeline persists, in one atomic database step, the
header row — status `complete` when validation passed, `needs_review`
otherwise — together with one item row per extracted item bound to the
new receipt id; validation issues are reported but never abort the
persist (`success = true` regardless of validity). -/
theorem processReceipt_persists_atomically (env : Env) (flag : Bool) (db : DB)
    (fn b64 : String) (data : ExtractedReceiptData)
    (h1 : getReceiptByFilename db fn = none)
    (h2 : env.fs (joinPath (getReceiptsDir env) fn) = some b64)
    (h3 : extractReceiptDataWithVision env b64 "" = .ok data)
    (h4 : db.nextReceiptId ≠ 0) :
    ∃ row : ReceiptRow,
      (processReceipt env flag db fn).db.receipts = db.receipts ++ [row] ∧
      row.filename = fn ∧
      row.processing_status =
        (if (validateReceiptData data).valid then "complete" else "needs_review") ∧
      (processReceipt env flag db fn).db.items =
        db.items ++ mkItemRows db.nextItemId row.id (data.items.map toItemInput) ∧
      (∀ r ∈ mkItemRows db.nextItemId row.id (data.items.map toItemInput),
        r.receipt_id = row.id) ∧
      (processReceipt env flag db fn).result.success = true ∧
      (processReceipt env flag db fn).result.receiptId = some row.id ∧
      (processReceipt env flag db fn).result.validationIssues =
        some (validateReceiptData data).issues := by
  have ht := processTransaction_ok db fn data (validateReceiptData data) h1 h4
  refine ⟨{ id := db.nextReceiptId, filename := fn,
            merchant_name := orNullStr (some data.merchant_name),
            receipt_date := orNullStr (some data.receipt_date),
            total_amount := orNullNum (some data.total_amount),
            currency := orDefaultStr (some data.currency) "USD",
            raw_text := none,
            processing_status :=
              orDefaultStr
                (some (if (validateReceiptData data).valid then "complete"
                       else "needs_review"))
                "pending" }, ?_, rfl, ?_, ?_, ?_, ?_, ?_, ?_⟩
  · simp only [processReceipt, h1, h2, h3, ht]
  · cases hv : (validateReceiptData data).valid <;> simp [hv, orDefaultStr]
  · simp only [processReceipt, h1, h2, h3, ht]
  · intro r hr
    exact mkItemRows_receipt_id _ _ _ r hr
  · simp only [processReceipt, h1, h2, h3, ht]
  · simp only [processReceipt, h1, h2, h3, ht]
  · simp only [processReceipt, h1, h2, h3, ht]

/-- C3 witness at the sample environment: the valid sample document is
persisted with one header row and one item row. -/
theorem processReceipt_persists_atomically_witness :
    ∃ row : ReceiptRow,
      (processReceipt sampleEnv true emptyDB "a.pdf").db.receipts =
        emptyDB.receipts ++ [row] ∧
      row.filename = "a.pdf" ∧
      row.processing_status =
        (if (validateReceiptData sampleData).valid then "complete"
         else "needs_review") ∧
      (processReceipt sampleEnv true emptyDB "a.pdf").db.items =
        emptyDB.items ++
          mkItemRows emptyDB.nextItemId row.id
            (sampleData.items.map toItemInput) ∧
      (∀ r ∈ mkItemRows emptyDB.nextItemId row.id
          (sampleData.items.map toItemInput), r.receipt_id = row.id) ∧
      (processReceipt sampleEnv true emptyDB "a.pdf").result.success = true ∧
      (processReceipt sampleEnv true emptyDB "a.pdf").result.receiptId =
        some row.id ∧
      (processReceipt sampleEnv true emptyDB "a.pdf").result.validationIssues =
        some (validateReceiptData sampleData).issues :=
  processReceipt_persists_atomically sampleEnv true emptyDB "a.pdf" "B64"
    sampleData rfl rfl rfl (by decide)

/-! ## C5 — batch processing and failure isolation -/

/-- Every branch of `processReceipt` reports the processed filename. -/
lemma processReceipt_result_filename (env : Env) (flag : Bool) (db : DB)
    (fn : String) : (processReceipt env flag db fn).result.filename = fn := by
  simp only [processReceipt]
  cases getReceiptByFilename db fn with
  | some r => rfl
  | none =>
    dsimp only
    cases env.fs (joinPath (getReceiptsDir env) fn) with
    | none => rfl
    | some b64 =>
      dsimp only
      cases extractReceiptDataWithVision env b64 "" with
      | error e => rfl
      | ok d =>
        dsimp only
        cases processTransaction db fn d (validateReceiptData d) with
        | error e => rfl
        | ok p => obtain ⟨rid, db2⟩ := p; rfl

/-- A failed `processReceipt` call leaves the database untouched. -/
lemma processReceipt_failure_frame (env : Env) (flag : Bool) (db : DB)
    (fn : String) (h : (processReceipt env flag db fn).result.success = false) :
    (processReceipt env flag db fn).db = db := by
  revert h
  simp only [processReceipt]
  cases getReceiptByFilename db fn with
  | some r => intro h; rfl
  | none =>
    dsimp only
    cases env.fs (joinPath (getReceiptsDir env) fn) with
    | none => intro h; rfl
    | some b64 =>
      dsimp only
      cases extractReceiptDataWithVision env b64 "" with
      | error e => intro h; rfl
      | ok d =>
        dsimp only
        cases processTransaction db fn d (validateReceiptData d) with
        | error e => intro h; rfl
        | ok p => obtain ⟨rid, db2⟩ := p; intro h; cases h

/-- C5: a batch yields exactly one outcome per input filename in input
order (`processReceipt` is total: it never throws); any failed document
leaves the database unchanged; and an extraction failure yields a
`success = false` outcome carrying the failure message while the batch
continues with the remaining documents. -/
theorem processMultipleReceipts_spec (env : Env) (flag : Bool) (db : DB)
    (fns : List String) :
    ((processMultipleReceipts env flag db fns).1.map
        (fun r => r.filename) = fns) ∧
    (∀ (db2 : DB) (fn : String),
      (processReceipt env flag db2 fn).result.success = false →
      (processReceipt env flag db2 fn).db = db2) ∧
    (∀ (db2 : DB) (fn b64 e : String),
      getReceiptByFilename db2 fn = none →
      env.fs (joinPath (getReceiptsDir env) fn) = some b64 →
      extractReceiptDataWithVision env b64 "" = .error e →
      processReceipt env flag db2 fn =
        ⟨{ success := false, filename := fn, receiptId := none, message := e,
           usedVision := false, textQuality := none, extractedData := none,
           validationIssues := none }, db2, 1⟩) := by
  refine ⟨?_, fun db2 fn h => processReceipt_failure_frame env flag db2 fn h, ?_⟩
  · induction fns generalizing db with
    | nil => rfl
    | cons fn rest ih =>
      simp [processMultipleReceipts, processReceipt_result_filename, ih]
  · intro db2 fn b64 e hg hfs hx
    simp only [processReceipt, hg, hfs, hx]

/-- C5 witness: with a failing vision transport a two-document batch still
produces one outcome per document in order, and the failing document's
outcome carries the wrapped failure message with the database unchanged. -/
theorem processMultipleReceipts_spec_witness :
    ((processMultipleReceipts failEnv true emptyDB ["a.pdf", "b.pdf"]).1.map
        (fun r => r.filename) = ["a.pdf", "b.pdf"]) ∧
    processReceipt failEnv true emptyDB "a.pdf" =
      ⟨{ success := false, filename := "a.pdf", receiptId := none,
         message := "Failed to extract receipt data with vision: boom",
         usedVision := false, textQuality := none, extractedData := none,
         validationIssues := none }, emptyDB, 1⟩ :=
  ⟨(processMultipleReceipts_spec failEnv true emptyDB ["a.pdf", "b.pdf"]).1,
   (processMultipleReceipts_spec failEnv true emptyDB ["a.pdf", "b.pdf"]).2.2
      emptyDB "a.pdf" "B64" "Failed to extract receipt data with vision: boom"
      rfl rfl rfl⟩

/-! ## C4 — validator -/

/-- A sum-mismatch message is never the empty-items message. -/
lemma sumIssueMsg_ne_noItems (s t : ℚ) : sumIssueMsg s t ≠ noItemsIssue := by
  intro h
  have h2 := congrArg String.data h
  simp [sumIssueMsg, noItemsIssue, String.data_append] at h2

/-- A sum-mismatch message is never the date-format message. -/
lemma sumIssueMsg_ne_dateIssue (s t : ℚ) : sumIssueMsg s t ≠ dateIssue := by
  intro h
  have h2 := congrArg String.data h
  simp [sumIssueMsg, dateIssue, String.data_append] at h2

/-- The empty-items message is never a sum-mismatch message. -/
lemma noItems_ne_sumIssueMsg (s t : ℚ) : noItemsIssue ≠ sumIssueMsg s t :=
  fun h => sumIssueMsg_ne_noItems s t h.symm

/-- The date-format message is never a sum-mismatch message. -/
lemma dateIssue_ne_sumIssueMsg (s t : ℚ) : dateIssue ≠ sumIssueMsg s t :=
  fun h => sumIssueMsg_ne_dateIssue s t h.symm

/-- Membership and emptiness of a three-check issue list with pairwise
distinct messages, the shape `validateReceiptData` builds. -/
lemma tri_issue_spec (p1 p2 : Prop) [Decidable p1] [Decidable p2] (b3 : Bool)
    (m1 m2 m3 : String) (h12 : m1 ≠ m2) (h13 : m1 ≠ m3) (h23 : m2 ≠ m3) :
    (m1 ∈ ((if p1 then [m1] else []) ++ (if p2 then [m2] else []) ++
        (if b3 then [] else [m3])) ↔ p1) ∧
    (m2 ∈ ((if p1 then [m1] else []) ++ (if p2 then [m2] else []) ++
        (if b3 then [] else [m3])) ↔ p2) ∧
    (m3 ∈ ((if p1 then [m1] else []) ++ (if p2 then [m2] else []) ++
        (if b3 then [] else [m3])) ↔ b3 = false) ∧
    (((if p1 then [m1] else []) ++ (if p2 then [m2] else []) ++
        (if b3 then [] else [m3])) = [] ↔ (¬p1 ∧ ¬p2 ∧ b3 = true)) := by
  by_cases h1 : p1 <;> by_cases h2 : p2 <;> cases b3 <;>
    simp [h1, h2, h12, h13, h23, Ne.symm h12, Ne.symm h13, Ne.symm h23]

/-- C4: the validator returns `valid` iff no issue was recorded; the issues
list is exactly the concatenation of the three independent checks (sum
against `max (5%, 0.50)` tolerance, empty items, date pattern), each issue
present iff its condition holds regardless of the others; and the date
check is purely syntactic: `"2024-13-40"` passes. -/
theorem validateReceiptData_spec (d : ExtractedReceiptData) :
    ((validateReceiptData d).issues =
      (if |itemsSum d.items - d.total_amount| >
          max (0.05 * d.total_amount) 0.5
       then [sumIssueMsg (itemsSum d.items) d.total_amount] else []) ++
      (if d.items.length = 0 then [noItemsIssue] else []) ++
      (if dateFormatOk d.receipt_date then [] else [dateIssue])) ∧
    ((validateReceiptData d).valid = true ↔ (validateReceiptData d).issues = []) ∧
    (sumIssueMsg (itemsSum d.items) d.total_amount ∈ (validateReceiptData d).issues ↔
      |itemsSum d.items - d.total_amount| > max (0.05 * d.total_amount) 0.5) ∧
    (noItemsIssue ∈ (validateReceiptData d).issues ↔ d.items = []) ∧
    (dateIssue ∈ (validateReceiptData d).issues ↔
      dateFormatOk d.receipt_date = false) ∧
    ((validateReceiptData d).valid = true ↔
      (¬ |itemsSum d.items - d.total_amount| > max (0.05 * d.total_amount) 0.5 ∧
        d.items ≠ [] ∧ dateFormatOk d.receipt_date = true)) ∧
    dateFormatOk "2024-13-40" = true := by
  have hsn := sumIssueMsg_ne_noItems (itemsSum d.items) d.total_amount
  have hsd := sumIssueMsg_ne_dateIssue (itemsSum d.items) d.total_amount
  have hnd : noItemsIssue ≠ dateIssue := by decide
  have hiss : (validateReceiptData d).issues =
      (if |itemsSum d.items - d.total_amount| >
          max (0.05 * d.total_amount) 0.5
       then [sumIssueMsg (itemsSum d.items) d.total_amount] else []) ++
      (if d.items.length = 0 then [noItemsIssue] else []) ++
      (if dateFormatOk d.receipt_date then [] else [dateIssue]) := rfl
  have hv : (validateReceiptData d).valid =
      decide ((validateReceiptData d).issues.length = 0) := rfl
  obtain ⟨q1, q2, q3, q4⟩ :=
    tri_issue_spec
      (|itemsSum d.items - d.total_amount| > max (0.05 * d.total_amount) 0.5)
      (d.items.length = 0) (dateFormatOk d.receipt_date)
      (sumIssueMsg (itemsSum d.items) d.total_amount) noItemsIssue dateIssue
      hsn hsd hnd
  refine ⟨rfl, ?_, ?_, ?_, ?_, ?_, by decide⟩
  · rw [hv, decide_eq_true_eq]
    exact List.length_eq_zero
  · rw [hiss]; exact q1
  · rw [hiss]; exact q2.trans List.length_eq_zero
  · rw [hiss]; exact q3
  · rw [hv, decide_eq_true_eq, List.length_eq_zero, hiss, q4]
    simp [List.length_eq_zero]

/-! ## C6, C7 — receipt store move -/

/-- C6: `moveFileToReceipts` raises exactly the specified precondition
errors, naming the offending path or filename, and in every such error
case returns the filesystem exactly as it was: missing source, directory
source, and an already-present destination name (the store never
overwrites). -/
theorem moveFileToReceipts_error_cases (homedir : String)
    (io : MoveStep → Option String) (fs : FileSys) (src : String) :
    (fs.entries src = none →
      moveFileToReceipts homedir io fs src =
        (.error ("Source file does not exist: " ++ src), fs)) ∧
    (fs.entries src = some .dir →
      moveFileToReceipts homedir io fs src =
        (.error ("Source is not a file: " ++ src), fs)) ∧
    (∀ content, fs.entries src = some (.file content) →
      (fs.entries (joinPath (homedir ++ "/receipts") (basename src))).isSome = true →
      moveFileToReceipts homedir io fs src =
        (.error ("File already exists in receipts: " ++ basename src), fs)) := by
  refine ⟨?_, ?_, ?_⟩
  · intro h; simp only [moveFileToReceipts, h]
  · intro h; simp only [moveFileToReceipts, h]
  · intro content h hdest
    simp only [moveFileToReceipts, h, hdest, if_true]

/-- Sample store state for the C6 witness: a stored file, a directory, and
one name already present in the receipts directory. -/
def sampleFS : FileSys :=
  ⟨fun p =>
    if p = "/x/dup.pdf" then some (.file "bytes")
    else if p = "/x/dir" then some .dir
    else if p = "/home/u/receipts/dup.pdf" then some (.file "old")
    else none⟩

/-- C6 witness: the three precondition failures at concrete inputs, each
leaving the filesystem unchanged. -/
theorem moveFileToReceipts_error_cases_witness :
    (moveFileToReceipts "/home/u" (fun _ => none) sampleFS "/x/missing.pdf" =
      (.error ("Source file does not exist: " ++ "/x/missing.pdf"), sampleFS)) ∧
    (moveFileToReceipts "/home/u" (fun _ => none) sampleFS "/x/dir" =
      (.error ("Source is not a file: " ++ "/x/dir"), sampleFS)) ∧
    (moveFileToReceipts "/home/u" (fun _ => none) sampleFS "/x/dup.pdf" =
      (.error ("File already exists in receipts: " ++ basename "/x/dup.pdf"),
        sampleFS)) :=
  ⟨(moveFileToReceipts_error_cases "/home/u" (fun _ => none) sampleFS
      "/x/missing.pdf").1 rfl,
   (moveFileToReceipts_error_cases "/home/u" (fun _ => none) sampleFS
      "/x/dir").2.1 rfl,
   (moveFileToReceipts_error_cases "/home/u" (fun _ => none) sampleFS
      "/x/dup.pdf").2.2 "bytes" rfl rfl⟩

/-- C7: when the copy succeeds but the source-removal step fails, the move
reports a wrapped failure while the destination already holds the copied
content and the source still holds the original bytes — the same content
sits at both locations. -/
theorem moveFileToReceipts_nonatomic (homedir : String)
    (io : MoveStep → Option String) (fs : FileSys) (src content m : String)
    (h1 : fs.entries src = some (.file content))
    (h2 : fs.entries (joinPath (homedir ++ "/receipts") (basename src)) = none)
    (h3 : io .copy = none) (h4 : io .clearSource = some m) :
    moveFileToReceipts homedir io fs src =
      (.error ("Failed to move file: " ++ m),
        fs.write (joinPath (homedir ++ "/receipts") (basename src)) content) ∧
    (fs.write (joinPath (homedir ++ "/receipts") (basename src)) content).entries
        (joinPath (homedir ++ "/receipts") (basename src)) = some (.file content) ∧
    (fs.write (joinPath (homedir ++ "/receipts") (basename src)) content).entries
        src = some (.file content) := by
  have hne : src ≠ joinPath (homedir ++ "/receipts") (basename src) := by
    intro he
    rw [← he, h1] at h2
    cases h2
  refine ⟨?_, ?_, ?_⟩
  · simp only [moveFileToReceipts, h1, h2, h3, h4, Option.isSome_none,
      Bool.false_eq_true, if_false]
  · simp [FileSys.write]
  · simp [FileSys.write, hne]
    exact h1

/-- C7 witness: a concrete failing clear step leaves the bytes at both the
source and the destination. -/
theorem moveFileToReceipts_nonatomic_witness :
    moveFileToReceipts "/home/u"
        (fun s => if s = .clearSource then some "EACCES" else none)
        (⟨fun p => if p = "/x/a.pdf" then some (.file "bytes") else none⟩ : FileSys)
        "/x/a.pdf" =
      (.error ("Failed to move file: " ++ "EACCES"),
        FileSys.write
          (⟨fun p => if p = "/x/a.pdf" then some (.file "bytes") else none⟩ : FileSys)
          (joinPath ("/home/u" ++ "/receipts") (basename "/x/a.pdf")) "bytes") ∧
    (FileSys.write
        (⟨fun p => if p = "/x/a.pdf" then some (.file "bytes") else none⟩ : FileSys)
        (joinPath ("/home/u" ++ "/receipts") (basename "/x/a.pdf")) "bytes").entries
      (joinPath ("/home/u" ++ "/receipts") (basename "/x/a.pdf")) =
        some (.file "bytes") ∧
    (FileSys.write
        (⟨fun p => if p = "/x/a.pdf" then some (.file "bytes") else none⟩ : FileSys)
        (joinPath ("/home/u" ++ "/receipts") (basename "/x/a.pdf")) "bytes").entries
      "/x/a.pdf" = some (.file "bytes") :=
  moveFileToReceipts_nonatomic "/home/u"
    (fun s => if s = .clearSource then some "EACCES" else none)
    (⟨fun p => if p = "/x/a.pdf" then some (.file "bytes") else none⟩ : FileSys)
    "/x/a.pdf" "bytes" "EACCES" rfl rfl rfl rfl

/-! ## C8 — path resolver -/

/-- C8: the resolver returns only candidates that exist at call time; the
result is exactly the existence-filter of the full candidate list (input
order kept, duplicates kept, non-existent candidates silently dropped);
and empty or whitespace-only input yields an empty list, never an error
(the function is total). -/
theorem parseFilePaths_spec (fsExists : String → Bool) (text : String) :
    (∀ p ∈ parseFilePaths fsExists text, fsExists p = true) ∧
    (parseFilePaths fsExists text =
      (parseFilePaths (fun _ => true) text).filter fsExists) ∧
    (jsTrim text = "" → parseFilePaths fsExists text = []) := by
  refine ⟨?_, ?_, ?_⟩
  · intro p hp
    exact List.of_mem_filter hp
  · unfold parseFilePaths
    rw [List.filter_true]
  · intro h
    unfold parseFilePaths candidateLines
    rw [h]
    simp

/-- C8 witness: whitespace-only input resolves to the empty list. -/
theorem parseFilePaths_spec_witness :
    parseFilePaths (fun _ => true) "  \n \t " = [] :=
  (parseFilePaths_spec (fun _ => true) "  \n \t ").2.2 rfl

/-! ## C9 — insertReceipt falsy coercions -/

/-- C9: `insertReceipt` applies JavaScript `||` coercions before binding:
a zero total is stored as NULL (so a stored total is never the number 0),
an absent or empty currency becomes `"USD"`, an absent status becomes
`"pending"`; the row is appended as given otherwise. -/
theorem insertReceipt_falsy_coercions (db : DB) (input : ReceiptInput)
    (row : ReceiptRow) (db2 : DB)
    (h : insertReceipt db input = .ok (row, db2)) :
    db2.receipts = db.receipts ++ [row] ∧
    (input.total_amount = some 0 → row.total_amount = none) ∧
    (input.currency = none ∨ input.currency = some "" → row.currency = "USD") ∧
    (input.processing_status = none → row.processing_status = "pending") ∧
    row.total_amount ≠ some 0 := by
  unfold insertReceipt at h
  cases hf : getReceiptByFilename db input.filename with
  | some r => rw [hf] at h; simp at h
  | none =>
    rw [hf] at h
    injection h with h
    injection h with hrow hdb
    subst hrow
    subst hdb
    refine ⟨rfl, ?_, ?_, ?_, ?_⟩
    · intro ht; simp [orNullNum, ht]
    · intro hc; rcases hc with hc | hc <;> simp [orDefaultStr, hc]
    · intro hp; simp [orDefaultStr, hp]
    · cases hta : input.total_amount with
      | none => simp [orNullNum]
      | some v => by_cases hv : v = 0 <;> simp [orNullNum, hv]

/-- An input receipt whose total is exactly 0, with currency and status
absent. -/
def zeroInput : ReceiptInput :=
  { filename := "z.pdf", merchant_name := some "M",
    receipt_date := some "2024-01-02", total_amount := some 0,
    currency := none, raw_text := none, processing_status := none }

/-- The row `insertReceipt` stores for `zeroInput` on the empty database. -/
def zeroRow : ReceiptRow :=
  { id := 1, filename := "z.pdf", merchant_name := some "M",
    receipt_date := some "2024-01-02", total_amount := none,
    currency := "USD", raw_text := none, processing_status := "pending" }

/-- The database after inserting `zeroInput` into the empty database. -/
def dbAfterZero : DB :=
  { receipts := [zeroRow], items := [], nextReceiptId := 2, nextItemId := 1 }

/-- C9 witness: inserting a receipt with total 0 and no currency/status
stores NULL total, `"USD"` and `"pending"`. -/
theorem insertReceipt_falsy_coercions_witness :
    dbAfterZero.receipts = emptyDB.receipts ++ [zeroRow] ∧
    (zeroInput.total_amount = some 0 → zeroRow.total_amount = none) ∧
    (zeroInput.currency = none ∨ zeroInput.currency = some "" →
      zeroRow.currency = "USD") ∧
    (zeroInput.processing_status = none → zeroRow.processing_status = "pending") ∧
    zeroRow.total_amount ≠ some 0 :=
  insertReceipt_falsy_coercions emptyDB zeroInput zeroRow dbAfterZero rfl

/-! ## C10 — insertReceiptItems falsy coercions -/

/-- A JavaScript `|| d` numeric coercion with a non-zero default never
yields zero. -/
lemma orDefaultNum_ne_zero (q : Option ℚ) (d : ℚ) (hd : d ≠ 0) :
    orDefaultNum q d ≠ 0 := by
  cases q with
  | none => simpa [orDefaultNum] using hd
  | some v => by_cases hv : v = 0 <;> simp [orDefaultNum, hv, hd]

/-- Every row produced by `mkItemRows` has a non-zero quantity. -/
lemma mkItemRows_quantity_ne_zero : ∀ (items : List ItemInput)
    (firstId receiptId : ℕ) (r : ItemRow),
    r ∈ mkItemRows firstId receiptId items → r.quantity ≠ 0 := by
  intro items
  induction items with
  | nil => intro firstId rid r h; simp [mkItemRows] at h
  | cons it rest ih =>
    intro firstId rid r h
    rw [mkItemRows] at h
    rcases List.mem_cons.mp h with h | h
    · subst h
      exact orDefaultNum_ne_zero it.quantity 1 one_ne_zero
    · exact ih (firstId + 1) rid r h

/-- C10: `insertReceiptItems` coerces falsy numeric fields: a zero or
missing quantity is stored as 1 and a zero or missing unit price as NULL,
so no stored item row ever has quantity 0; the rows are appended bound to
the given receipt id. -/
theorem insertReceiptItems_falsy_coercions (db : DB) (receiptId : ℕ)
    (items : List ItemInput) :
    (insertReceiptItems db receiptId items).items =
      db.items ++ mkItemRows db.nextItemId receiptId items ∧
    (∀ r ∈ mkItemRows db.nextItemId receiptId items,
      r.receipt_id = receiptId ∧ r.quantity ≠ 0) ∧
    (∀ (id rid : ℕ) (it : ItemInput),
      (it.quantity = some 0 ∨ it.quantity = none) →
      (mkItemRow id rid it).quantity = 1) ∧
    (∀ (id rid : ℕ) (it : ItemInput),
      (it.unit_price = some 0 ∨ it.unit_price = none) →
      (mkItemRow id rid it).unit_price = none) := by
  refine ⟨rfl, ?_, ?_, ?_⟩
  · intro r hr
    exact ⟨mkItemRows_receipt_id items db.nextItemId receiptId r hr,
      mkItemRows_quantity_ne_zero items db.nextItemId receiptId r hr⟩
  · intro id rid it hq
    rcases hq with hq | hq <;> simp [mkItemRow, orDefaultNum, hq]
  · intro id rid it hu
    rcases hu with hu | hu <;> simp [mkItemRow, orNullNum, hu]

/-- An item with quantity 0 and unit price 0. -/
def zeroItem : ItemInput :=
  { item_name := "Water", quantity := some 0, unit_price := some 0,
    total_price := 3, category := none }

/-- C10 witness: a zero quantity is stored as 1 and a zero unit price as
NULL. -/
theorem insertReceiptItems_falsy_coercions_witness :
    (insertReceiptItems emptyDB 5 [zeroItem]).items =
      emptyDB.items ++ mkItemRows emptyDB.nextItemId 5 [zeroItem] ∧
    (mkItemRow 1 5 zeroItem).quantity = 1 ∧
    (mkItemRow 1 5 zeroItem).unit_price = none :=
  ⟨(insertReceiptItems_falsy_coercions emptyDB 5 [zeroItem]).1,
   (insertReceiptItems_falsy_coercions emptyDB 5 [zeroItem]).2.2.1 1 5 zeroItem
     (Or.inl rfl),
   (insertReceiptItems_falsy_coercions emptyDB 5 [zeroItem]).2.2.2 1 5 zeroItem
     (Or.inl rfl)⟩

end Lesentiel
